import Mathlib

/-!
Formal model of the movie-rental statement program.

This file is a shallow embedding of `src/rental-statement.ts`, a small
pricing and statement-rendering utility.  Currency amounts are modelled as
rational numbers (the source's decimal constants such as `1.5` are exact in
`ℚ`), rental day counts as rationals so that the source's
`Number.isInteger` validation is expressible, thrown exceptions as the
`Except` monad, and the `console.log` diagnostic as an explicit log list.
JavaScript string operations (`padStart`, `padEnd`, `slice`, `trim`,
`repeat`, `toFixed`) are modelled character-list-wise on Lean strings.
-/

set_option allowUnsafeReducibility true
set_option maxRecDepth 100000
attribute [semireducible] Rat.add Rat.mul Rat.sub Rat.inv Rat.div Rat.ofScientific

namespace RentalStatement

/-- Source constant `POINTS_PER_RENTAL = 1`. -/
def POINTS_PER_RENTAL : ℕ := 1

/-- Shape of the `regular` and `children` entries of `PRICING_TIERS`:
`{ base, thresholdDays, extraRate }`. -/
structure TierParams where
  base : ℚ
  thresholdDays : ℚ
  extraRate : ℚ
deriving DecidableEq

/-- Shape of the `new` entry of `PRICING_TIERS`:
`{ rate, thresholdDays, bonusPoints }`. -/
structure NewTierParams where
  rate : ℚ
  thresholdDays : ℚ
  bonusPoints : ℕ
deriving DecidableEq

/-- The three entries of the source's `PRICING_TIERS` record. -/
structure PricingTierTable where
  regular : TierParams
  children : TierParams
  new : NewTierParams
deriving DecidableEq

/-- Source constant table `PRICING_TIERS`:
`regular: { base: 2, thresholdDays: 2, extraRate: 1.5 }`,
`children: { base: 1.5, thresholdDays: 3, extraRate: 1.5 }`,
`new: { rate: 3, thresholdDays: 2, bonusPoints: 1 }`. -/
def PRICING_TIERS : PricingTierTable :=
  ⟨⟨2, 2, 1.5⟩, ⟨1.5, 3, 1.5⟩, ⟨3, 2, 1⟩⟩

/-- Movie record `{ title, code }`.  The source types `code` with the closed
union `MovieCode`, but the runtime lookup `chargeCalculators[movie.code]`
tolerates arbitrary strings, so the model keeps `code` as a `String`. -/
structure Movie where
  title : String
  code : String
deriving DecidableEq

/-- Catalog type `Record<string, Movie>`, modelled as an association list with
`List.lookup` as the `movies[rental.movieID]` access. -/
def Movies := List (String × Movie)

/-- Rental record `{ movieID, days }`.  `days` is a JavaScript number, kept as a
rational so that the `Number.isInteger(days)` validation is expressible. -/
structure Rental where
  movieID : String
  days : ℚ
deriving DecidableEq

/-- Customer record `{ name, rentals }`. -/
structure Customer where
  name : String
  rentals : List Rental
deriving DecidableEq

/-- Summary record `{ title, amount }`. -/
structure RentalSummary where
  title : String
  amount : ℚ
deriving DecidableEq

/-- Charge record `{ amount, points }`. -/
structure RentalCharge where
  amount : ℚ
  points : ℕ
deriving DecidableEq

/-- The two `throw new Error(...)` sites of the source, told apart by
their messages: the `days` validation in `calculateRentalCharge` and the
missing-movie check in `statement`. -/
inductive StatementError where
  | invalidInput (days : ℚ)
  | movieNotFound (movieID : String)
deriving DecidableEq

instance {ε α : Type} [DecidableEq ε] [DecidableEq α] : DecidableEq (Except ε α) := fun x y =>
  match x, y with
  | Except.ok a, Except.ok b =>
      if h : a = b then isTrue (by rw [h]) else isFalse (by simp [h])
  | Except.error e, Except.error f =>
      if h : e = f then isTrue (by rw [h]) else isFalse (by simp [h])
  | Except.ok _, Except.error _ => isFalse (by simp)
  | Except.error _, Except.ok _ => isFalse (by simp)

/-- Source function `calculateRegularCharge`: `base` for up to `thresholdDays` days, then
`extraRate` per further day; flat `POINTS_PER_RENTAL` points. -/
def calculateRegularCharge (days : ℚ) : RentalCharge :=
  let t := PRICING_TIERS.regular
  ⟨if t.thresholdDays < days then t.base + (days - t.thresholdDays) * t.extraRate else t.base,
    POINTS_PER_RENTAL⟩

/-- Source function `calculateChildrenCharge`: same shape as `calculateRegularCharge`
with the `children` tier parameters. -/
def calculateChildrenCharge (days : ℚ) : RentalCharge :=
  let t := PRICING_TIERS.children
  ⟨if t.thresholdDays < days then t.base + (days - t.thresholdDays) * t.extraRate else t.base,
    POINTS_PER_RENTAL⟩

/-- Source function `calculateNewReleaseCharge`: linear `days * rate` amount, one bonus
point beyond `thresholdDays` days. -/
def calculateNewReleaseCharge (days : ℚ) : RentalCharge :=
  let t := PRICING_TIERS.new
  ⟨days * t.rate,
    if t.thresholdDays < days then POINTS_PER_RENTAL + t.bonusPoints else POINTS_PER_RENTAL⟩

/-- The `chargeCalculators` dispatch record; an unlisted code yields
`none`, the model of the record access coming back `undefined`. -/
def chargeCalculators (code : String) : Option (ℚ → RentalCharge) :=
  match code with
  | "regular" => some calculateRegularCharge
  | "children" => some calculateChildrenCharge
  | "new" => some calculateNewReleaseCharge
  | _ => none

/-- Source function `calculateRentalCharge`: validates `days` (`Number.isInteger(days)` is
`days.den = 1` here), then dispatches on the movie code, falling back to a
zero charge plus a `console.log` notice (the `List String` component of
the result) for an unknown code. -/
def calculateRentalCharge (movie : Movie) (days : ℚ) :
    Except StatementError (RentalCharge × List String) :=
  if days.den ≠ 1 ∨ days < 1 then
    Except.error (StatementError.invalidInput days)
  else
    match chargeCalculators movie.code with
    | none =>
        Except.ok (⟨0, POINTS_PER_RENTAL⟩,
          ["Unknown movie code: \"" ++ movie.code ++ "\""])
    | some calculator => Except.ok (calculator days, [])

/-- JavaScript `"c".repeat(n)` on single characters. -/
def repeatChar (c : Char) (n : ℕ) : String :=
  ⟨List.replicate n c⟩

/-- JavaScript `s.padEnd(w)`: append spaces up to width `w`. -/
def padEndStr (s : String) (w : ℕ) : String :=
  s ++ repeatChar ' ' (w - s.length)

/-- JavaScript `s.padStart(w)`: prepend spaces up to width `w`. -/
def padStartStr (s : String) (w : ℕ) : String :=
  repeatChar ' ' (w - s.length) ++ s

/-- JavaScript `s.slice(0, n)`: the first `n` characters. -/
def sliceTo (s : String) (n : ℕ) : String :=
  ⟨s.data.take n⟩

/-- JavaScript `s.trim()`: strip leading and trailing whitespace. -/
def jsTrim (s : String) : String :=
  ⟨((s.data.dropWhile Char.isWhitespace).reverse.dropWhile Char.isWhitespace).reverse⟩

/-- The number of cents displayed by `amount.toFixed(2)`: the amount
scaled by `100` and rounded to the nearest integer (ties up; the source's
amounts are exact multiples of a cent, where every rounding rule
agrees). -/
def roundCents (x : ℚ) : ℤ :=
  (x * 100 + 1 / 2).floor

/-- A displayed amount read back as a rational: `roundCents` re-divided
by `100`, i.e. the value at 2-decimal precision. -/
def round2 (x : ℚ) : ℚ :=
  (roundCents x : ℚ) / 100

/-- JavaScript `amount.toFixed(2)`: the rounded cents rendered with
exactly two decimal digits. -/
def toFixed2 (x : ℚ) : String :=
  let cents := roundCents x
  let m := cents.natAbs
  let digits :=
    toString (m / 100) ++ "." ++
      (if m % 100 < 10 then "0" ++ toString (m % 100) else toString (m % 100))
  if cents < 0 then "-" ++ digits else digits

/-- Source constant `LABEL_WIDTH = 30` in `formatStatementLine`. -/
def LABEL_WIDTH : ℕ := 30

/-- Source constant `AMOUNT_WIDTH = 8` in `formatStatementLine`. -/
def AMOUNT_WIDTH : ℕ := 8

/-- Source function `formatStatementLine(label, amount)`: a dash separator for a blank
label; otherwise the label (ellipsis-truncated past `LABEL_WIDTH`) padded
to `LABEL_WIDTH`, followed by the amount right-aligned in
`AMOUNT_WIDTH`. -/
def formatStatementLine (label : String) (amount : ℚ) : String :=
  if jsTrim label = "" then
    repeatChar '-' (LABEL_WIDTH + AMOUNT_WIDTH)
  else
    padEndStr
        (if LABEL_WIDTH < label.length then sliceTo label (LABEL_WIDTH - 3) ++ "..." else label)
        LABEL_WIDTH
      ++ padStartStr (toFixed2 amount) AMOUNT_WIDTH

/-- The mutable state accumulated by the rental loop of `statement`:
running amount and points totals, the summaries in rental order, and the
`console.log` output emitted along the way. -/
structure StmtData where
  totalAmount : ℚ
  frequentRenterPoints : ℕ
  rentalSummaries : List RentalSummary
  log : List String
deriving DecidableEq

/-- The `for (const rental of customer.rentals)` loop of `statement`:
resolve the movie (throwing `movieNotFound` on a miss), price it, and
accumulate totals and summaries in rental order. -/
def processRentals (rentals : List Rental) (movies : Movies) :
    Except StatementError StmtData :=
  match rentals with
  | [] => Except.ok ⟨0, 0, [], []⟩
  | r :: rest =>
    match List.lookup r.movieID movies with
    | none => Except.error (StatementError.movieNotFound r.movieID)
    | some movie =>
      match calculateRentalCharge movie r.days with
      | Except.error e => Except.error e
      | Except.ok (charge, lg) =>
        match processRentals rest movies with
        | Except.error e => Except.error e
        | Except.ok data =>
            Except.ok ⟨charge.amount + data.totalAmount,
              charge.points + data.frequentRenterPoints,
              ⟨movie.title, charge.amount⟩ :: data.rentalSummaries,
              lg ++ data.log⟩

/-- Source function `statement(customer, movies)`: run the rental loop, then join the
header, separators, per-rental lines, total line and points line with
newlines, with a trailing newline. -/
def statement (customer : Customer) (movies : Movies) :
    Except StatementError String :=
  match processRentals customer.rentals movies with
  | Except.error e => Except.error e
  | Except.ok data =>
      Except.ok (String.intercalate "\n"
        (["Rental Record for " ++ customer.name,
          formatStatementLine "" 0]
          ++ data.rentalSummaries.map (fun r => formatStatementLine r.title r.amount)
          ++ [formatStatementLine "" 0,
              formatStatementLine "Amount owed is" data.totalAmount,
              "Earned " ++ toString data.frequentRenterPoints ++ " frequent renter points"])
        ++ "\n")

/-- The catalog of the spec's test scenario:
`{F001: (Ran, regular), F002: (Bleu, regular), F003: (Sommar, children),
F004: (Yara, new-release)}` (the source's tag for new releases is
`"new"`). -/
def scenarioMovies : Movies :=
  [("F001", ⟨"Ran", "regular"⟩),
   ("F002", ⟨"Bleu", "regular"⟩),
   ("F003", ⟨"Sommar", "children"⟩),
   ("F004", ⟨"Yara", "new"⟩)]

/-- The customer of the spec's test scenario: `"martin"` with rentals
`[(F001,3),(F002,1),(F003,1),(F004,1)]`. -/
def martinCustomer : Customer :=
  ⟨"martin", [⟨"F001", 3⟩, ⟨"F002", 1⟩, ⟨"F003", 1⟩, ⟨"F004", 1⟩]⟩

/-- The statement text the model produces for the scenario (the error
branch is unreachable here, as proved below). -/
def martinOutput : String :=
  match statement martinCustomer scenarioMovies with
  | Except.ok s => s
  | Except.error _ => ""

/-- The loop state reached by the scenario: total `10`, `4` points, the
four summaries in rental order, no diagnostics. -/
def martinData : StmtData :=
  ⟨10, 4, [⟨"Ran", 3.5⟩, ⟨"Bleu", 2⟩, ⟨"Sommar", 1.5⟩, ⟨"Yara", 3⟩], []⟩

/-- A 40-character label, for exercising the ellipsis truncation. -/
def labelForty : String :=
  "0123456789012345678901234567890123456789"

/-- A customer whose first rental has `days = 0` and whose second rental
references a movie absent from `cexMovies`. -/
def cexCustomer : Customer :=
  ⟨"casey", [⟨"A", 0⟩, ⟨"B", 1⟩]⟩

/-- A one-movie catalog holding only ID `"A"`. -/
def cexMovies : Movies :=
  [("A", ⟨"Alien", "regular"⟩)]

/-- A customer with valid day counts whose second rental references the
catalog-free ID `"MISSING"`. -/
def missCustomer : Customer :=
  ⟨"dana", [⟨"F001", 2⟩, ⟨"MISSING", 1⟩]⟩

/-- Whether a `statement` result is the missing-movie failure. -/
def isMovieNotFound (x : Except StatementError String) : Bool :=
  match x with
  | Except.error (StatementError.movieNotFound _) => true
  | _ => false

/-- The movie ID of the first rental whose lookup misses the catalog, if
any: the ID named by the error the source's loop raises first when all
day counts are valid. -/
def firstMissing (rentals : List Rental) (movies : Movies) : Option String :=
  match rentals with
  | [] => none
  | r :: rest =>
    match List.lookup r.movieID movies with
    | none => some r.movieID
    | some _ => firstMissing rest movies

/-!  ## Lemmas and claim theorems -/

/-- The dispatch table holds exactly the three calculators. -/
theorem chargeCalculators_cases (code : String) :
    chargeCalculators code = none ∨
    chargeCalculators code = some calculateRegularCharge ∨
    chargeCalculators code = some calculateChildrenCharge ∨
    chargeCalculators code = some calculateNewReleaseCharge := by
  unfold chargeCalculators
  split
  · exact Or.inr (Or.inl rfl)
  · exact Or.inr (Or.inr (Or.inl rfl))
  · exact Or.inr (Or.inr (Or.inr rfl))
  · exact Or.inl rfl

/-- The `days` validation: a non-positive or non-integer count is
rejected with `invalidInput` whatever the movie is. -/
theorem calcCharge_invalid (movie : Movie) (days : ℚ)
    (h : days ≤ 0 ∨ days.den ≠ 1) :
    calculateRentalCharge movie days =
      Except.error (StatementError.invalidInput days) := by
  unfold calculateRentalCharge
  rw [if_pos]
  rcases h with h | h
  · exact Or.inr (lt_of_le_of_lt h one_pos)
  · exact Or.inl h

/-- A valid day count never yields an error, whatever the movie code. -/
theorem calcCharge_ok_of_valid (movie : Movie) (days : ℚ)
    (hden : days.den = 1) (hpos : 1 ≤ days) :
    ∃ res, calculateRentalCharge movie days = Except.ok res := by
  unfold calculateRentalCharge
  rw [if_neg (by push_neg; exact ⟨hden, hpos⟩)]
  rcases hc : chargeCalculators movie.code with _ | calculator <;> simp [hc]

/-- C1, counterexample: on the spec's scenario the regular 3-day rental is
charged `3.50`, not `2.00`, the total is `10`, not `8.50`, and the line
`"Amount owed is    8.50"` does not appear in the output. -/
theorem scenario_statement_cex :
    processRentals martinCustomer.rentals scenarioMovies = Except.ok martinData ∧
    martinData.totalAmount ≠ 8.5 ∧
    martinData.rentalSummaries.map RentalSummary.amount ≠ [2, 2, 1.5, 3] ∧
    ¬ ("Amount owed is    8.50".data <:+: martinOutput.data) := by
  refine ⟨by decide, by decide, by decide, by decide⟩

/-- C1, amended: for the scenario catalog and customer `"martin"`, the
per-rental amounts are `3.50, 2.00, 1.50, 3.00`, the total is `10.00`
with `4` frequent renter points, and the output contains
`"Rental Record for martin"`, `"Amount owed is   10.00"` and
`"Earned 4 frequent renter points"`. -/
theorem scenario_statement :
    processRentals martinCustomer.rentals scenarioMovies = Except.ok martinData ∧
    martinData.rentalSummaries.map RentalSummary.amount = [3.5, 2, 1.5, 3] ∧
    martinData.totalAmount = 10 ∧
    martinData.frequentRenterPoints = 4 ∧
    statement martinCustomer scenarioMovies = Except.ok martinOutput ∧
    ("Rental Record for martin".data <:+: martinOutput.data) ∧
    ("Amount owed is                   10.00".data <:+: martinOutput.data) ∧
    ("Earned 4 frequent renter points".data <:+: martinOutput.data) := by
  refine ⟨by decide, by decide, by decide, by decide, by decide, by decide, by decide, by decide⟩

/-- C2: for every positive integer day count, the regular charge is the
tier base up to the threshold and grows by `extraRate` per extra day, and
the children charge follows the same shape with its own tier constants;
both award exactly one point. -/
theorem regular_children_charge_spec (days : ℤ) (hpos : 1 ≤ days) :
    calculateRegularCharge (days : ℚ) =
      ⟨if (days : ℚ) ≤ PRICING_TIERS.regular.thresholdDays then PRICING_TIERS.regular.base
        else PRICING_TIERS.regular.base +
          ((days : ℚ) - PRICING_TIERS.regular.thresholdDays) * PRICING_TIERS.regular.extraRate,
        1⟩ ∧
    calculateChildrenCharge (days : ℚ) =
      ⟨if (days : ℚ) ≤ PRICING_TIERS.children.thresholdDays then PRICING_TIERS.children.base
        else PRICING_TIERS.children.base +
          ((days : ℚ) - PRICING_TIERS.children.thresholdDays) * PRICING_TIERS.children.extraRate,
        1⟩ := by
  constructor
  · unfold calculateRegularCharge POINTS_PER_RENTAL
    dsimp only
    rcases le_or_lt ((days : ℚ)) PRICING_TIERS.regular.thresholdDays with h | h
    · rw [if_neg (not_lt.2 h), if_pos h]
    · rw [if_pos h, if_neg (not_le.2 h)]
  · unfold calculateChildrenCharge POINTS_PER_RENTAL
    dsimp only
    rcases le_or_lt ((days : ℚ)) PRICING_TIERS.children.thresholdDays with h | h
    · rw [if_neg (not_lt.2 h), if_pos h]
    · rw [if_pos h, if_neg (not_le.2 h)]

/-- C2 witness at `days = 3`. -/
theorem regular_children_charge_spec_witness :
    (1 : ℤ) ≤ 3 ∧
    (calculateRegularCharge ((3 : ℤ) : ℚ) =
      ⟨if ((3 : ℤ) : ℚ) ≤ PRICING_TIERS.regular.thresholdDays then PRICING_TIERS.regular.base
        else PRICING_TIERS.regular.base +
          (((3 : ℤ) : ℚ) - PRICING_TIERS.regular.thresholdDays) * PRICING_TIERS.regular.extraRate,
        1⟩ ∧
    calculateChildrenCharge ((3 : ℤ) : ℚ) =
      ⟨if ((3 : ℤ) : ℚ) ≤ PRICING_TIERS.children.thresholdDays then PRICING_TIERS.children.base
        else PRICING_TIERS.children.base +
          (((3 : ℤ) : ℚ) - PRICING_TIERS.children.thresholdDays) * PRICING_TIERS.children.extraRate,
        1⟩) :=
  ⟨by decide, regular_children_charge_spec 3 (by decide)⟩

/-- C3: for every positive integer day count, the new-release amount is
purely linear in the day count and the points are `1 + bonusPoints`
beyond the threshold, else `1`. -/
theorem new_release_charge_spec (days : ℤ) (hpos : 1 ≤ days) :
    calculateNewReleaseCharge (days : ℚ) =
      ⟨(days : ℚ) * PRICING_TIERS.new.rate,
        if PRICING_TIERS.new.thresholdDays < (days : ℚ) then 1 + PRICING_TIERS.new.bonusPoints
        else 1⟩ :=
  rfl

/-- C3 witness at `days = 3`. -/
theorem new_release_charge_spec_witness :
    (1 : ℤ) ≤ 3 ∧
    calculateNewReleaseCharge ((3 : ℤ) : ℚ) =
      ⟨((3 : ℤ) : ℚ) * PRICING_TIERS.new.rate,
        if PRICING_TIERS.new.thresholdDays < ((3 : ℤ) : ℚ) then 1 + PRICING_TIERS.new.bonusPoints
        else 1⟩ :=
  ⟨by decide, new_release_charge_spec 3 (by decide)⟩

/-- C4: a zero, negative, or non-integer day count makes the pricing step
fail with the `invalidInput` error, whatever the movie and its
category. -/
theorem invalid_days_rejected (movie : Movie) (days : ℚ)
    (h : days ≤ 0 ∨ days.den ≠ 1) :
    calculateRentalCharge movie days =
      Except.error (StatementError.invalidInput days) :=
  calcCharge_invalid movie days h

/-- C4 witness at `days = 0`, `days = -1` and the non-integer
`days = 0.5`, across the three listed categories. -/
theorem invalid_days_rejected_witness :
    (((0 : ℚ) ≤ 0 ∨ (0 : ℚ).den ≠ 1) ∧
      calculateRentalCharge ⟨"Alien", "regular"⟩ 0 =
        Except.error (StatementError.invalidInput 0)) ∧
    (((-1 : ℚ) ≤ 0 ∨ (-1 : ℚ).den ≠ 1) ∧
      calculateRentalCharge ⟨"Yara", "new"⟩ (-1) =
        Except.error (StatementError.invalidInput (-1))) ∧
    (((0.5 : ℚ) ≤ 0 ∨ (0.5 : ℚ).den ≠ 1) ∧
      calculateRentalCharge ⟨"Sommar", "children"⟩ 0.5 =
        Except.error (StatementError.invalidInput 0.5)) :=
  ⟨⟨by decide, invalid_days_rejected _ _ (by decide)⟩,
   ⟨by decide, invalid_days_rejected _ _ (by decide)⟩,
   ⟨by decide, invalid_days_rejected _ _ (by decide)⟩⟩

/-- C5: a movie whose code has no calculator is charged `0` with `1`
point, without error, and the diagnostic log names the unrecognized
code. -/
theorem unknown_code_fallback (movie : Movie) (days : ℚ)
    (hcode : chargeCalculators movie.code = none)
    (hden : days.den = 1) (hpos : 1 ≤ days) :
    calculateRentalCharge movie days =
      Except.ok (⟨0, 1⟩, ["Unknown movie code: \"" ++ movie.code ++ "\""]) := by
  unfold calculateRentalCharge
  rw [if_neg (by push_neg; exact ⟨hden, hpos⟩), hcode]
  rfl

/-- C5 witness for the unknown code `"betamax"` at `days = 2`. -/
theorem unknown_code_fallback_witness :
    chargeCalculators (Movie.mk "Blob" "betamax").code = none ∧
    (2 : ℚ).den = 1 ∧ (1 : ℚ) ≤ 2 ∧
    calculateRentalCharge ⟨"Blob", "betamax"⟩ 2 =
      Except.ok (⟨0, 1⟩,
        ["Unknown movie code: \"" ++ (Movie.mk "Blob" "betamax").code ++ "\""]) :=
  ⟨rfl, by decide, by decide,
    unknown_code_fallback ⟨"Blob", "betamax"⟩ 2 rfl (by decide) (by decide)⟩

/-- C9: even for a movie with no matching pricing rule, an invalid day
count hits the `invalidInput` error, not the tolerant fallback. -/
theorem validation_precedes_fallback (movie : Movie) (days : ℚ)
    (hcode : chargeCalculators movie.code = none)
    (h : days ≤ 0 ∨ days.den ≠ 1) :
    calculateRentalCharge movie days =
      Except.error (StatementError.invalidInput days) ∧
    calculateRentalCharge movie days ≠
      Except.ok (⟨0, 1⟩, ["Unknown movie code: \"" ++ movie.code ++ "\""]) := by
  constructor
  · exact calcCharge_invalid movie days h
  · rw [calcCharge_invalid movie days h]
    exact fun hcontra => Except.noConfusion hcontra

/-- C9 witness for the unknown code `"laserdisc"` at `days = 0`. -/
theorem validation_precedes_fallback_witness :
    chargeCalculators (Movie.mk "Mystery" "laserdisc").code = none ∧
    ((0 : ℚ) ≤ 0 ∨ (0 : ℚ).den ≠ 1) ∧
    (calculateRentalCharge ⟨"Mystery", "laserdisc"⟩ 0 =
        Except.error (StatementError.invalidInput 0) ∧
      calculateRentalCharge ⟨"Mystery", "laserdisc"⟩ 0 ≠
        Except.ok (⟨0, 1⟩,
          ["Unknown movie code: \"" ++ (Movie.mk "Mystery" "laserdisc").code ++ "\""])) :=
  ⟨rfl, by decide,
    validation_precedes_fallback ⟨"Mystery", "laserdisc"⟩ 0 rfl (by decide)⟩

/-- A `repeatChar` string has the requested length. -/
theorem repeatChar_length (c : Char) (n : ℕ) : (repeatChar c n).length = n := by
  show (List.replicate n c).length = n
  exact List.length_replicate n c

/-- Slicing keeps exactly `n` characters of a string at least that
long. -/
theorem sliceTo_length (s : String) (n : ℕ) (h : n ≤ s.length) :
    (sliceTo s n).length = n := by
  show (s.data.take n).length = n
  have h' : n ≤ s.data.length := h
  rw [List.length_take]
  exact min_eq_left h'

/-- Appending the empty string is the identity. -/
theorem append_empty_str (s : String) : s ++ "" = s := by
  cases s with
  | mk d => exact congrArg String.mk (List.append_nil d)

/-- C8: `formatStatementLine` renders a blank label as exactly 38 dashes;
a non-blank label of at most 30 characters is kept whole and space-padded
to the 30-character column; a longer label is cut to its first 27
characters plus `"..."`, filling the column exactly. -/
theorem formatStatementLine_spec (label : String) (amount : ℚ) :
    (jsTrim label = "" →
      formatStatementLine label amount = repeatChar '-' 38 ∧
      (repeatChar '-' 38).data = List.replicate 38 '-') ∧
    (jsTrim label ≠ "" → label.length ≤ 30 →
      formatStatementLine label amount =
        label ++ repeatChar ' ' (30 - label.length) ++ padStartStr (toFixed2 amount) 8 ∧
      (label ++ repeatChar ' ' (30 - label.length)).length = 30) ∧
    (jsTrim label ≠ "" → 30 < label.length →
      formatStatementLine label amount =
        sliceTo label 27 ++ "..." ++ padStartStr (toFixed2 amount) 8 ∧
      (sliceTo label 27).length = 27 ∧
      (sliceTo label 27 ++ "...").length = 30) := by
  refine ⟨?_, ?_, ?_⟩
  · intro hb
    unfold formatStatementLine
    rw [if_pos hb]
    exact ⟨rfl, rfl⟩
  · intro hb hlen
    unfold formatStatementLine padEndStr LABEL_WIDTH AMOUNT_WIDTH
    rw [if_neg hb, if_neg (not_lt.2 hlen)]
    refine ⟨rfl, ?_⟩
    rw [String.length_append, repeatChar_length]
    omega
  · intro hb hlen
    have h27 : (sliceTo label 27).length = 27 := sliceTo_length label 27 (by omega)
    have h30 : (sliceTo label 27 ++ "...").length = 30 := by
      rw [String.length_append, h27]
      rfl
    unfold formatStatementLine padEndStr LABEL_WIDTH AMOUNT_WIDTH
    rw [if_neg hb, if_pos hlen, h30]
    refine ⟨?_, h27, rfl⟩
    rw [Nat.sub_self]
    show sliceTo label 27 ++ "..." ++ "" ++ padStartStr (toFixed2 amount) 8 =
      sliceTo label 27 ++ "..." ++ padStartStr (toFixed2 amount) 8
    rw [append_empty_str]

/-- C8 witness: the 40-character label is truncated to its first 27
characters plus the ellipsis; a blank label gives the 38-dash separator;
a 3-character label is padded, untruncated, to the 30-character
column. -/
theorem formatStatementLine_spec_witness :
    (jsTrim labelForty ≠ "" ∧ 30 < labelForty.length ∧
      (formatStatementLine labelForty 1.5 =
          sliceTo labelForty 27 ++ "..." ++ padStartStr (toFixed2 1.5) 8 ∧
        (sliceTo labelForty 27).length = 27 ∧
        (sliceTo labelForty 27 ++ "...").length = 30)) ∧
    (jsTrim "   " = "" ∧
      (formatStatementLine "   " 2 = repeatChar '-' 38 ∧
        (repeatChar '-' 38).data = List.replicate 38 '-')) ∧
    (jsTrim "Ran" ≠ "" ∧ "Ran".length ≤ 30 ∧
      (formatStatementLine "Ran" 2 =
          "Ran" ++ repeatChar ' ' (30 - "Ran".length) ++ padStartStr (toFixed2 2) 8 ∧
        ("Ran" ++ repeatChar ' ' (30 - "Ran".length)).length = 30)) :=
  ⟨⟨by decide, by decide,
      (formatStatementLine_spec labelForty 1.5).2.2 (by decide) (by decide)⟩,
   ⟨by decide, (formatStatementLine_spec "   " 2).1 (by decide)⟩,
   ⟨by decide, by decide,
      (formatStatementLine_spec "Ran" 2).2.1 (by decide) (by decide)⟩⟩

/-- C10: a resolved rental whose movie title is blank still has its
amount and points accumulated into the running totals and its summary
recorded, while its statement line renders as the 38-dash separator for
any amount value. -/
theorem blank_title_separator_accumulates (r : Rental) (rest : List Rental)
    (movies : Movies) (movie : Movie) (charge : RentalCharge) (lg : List String)
    (data : StmtData) (amt : ℚ)
    (hlook : List.lookup r.movieID movies = some movie)
    (hblank : jsTrim movie.title = "")
    (hcharge : calculateRentalCharge movie r.days = Except.ok (charge, lg))
    (hrest : processRentals rest movies = Except.ok data) :
    processRentals (r :: rest) movies =
      Except.ok ⟨charge.amount + data.totalAmount,
        charge.points + data.frequentRenterPoints,
        ⟨movie.title, charge.amount⟩ :: data.rentalSummaries,
        lg ++ data.log⟩ ∧
    formatStatementLine movie.title amt = repeatChar '-' 38 := by
  constructor
  · simp only [processRentals, hlook, hcharge, hrest]
  · unfold formatStatementLine
    rw [if_pos hblank]
    rfl

/-- A `firstMissing` hit is a rental ID absent from the catalog. -/
theorem firstMissing_sound (rentals : List Rental) (movies : Movies) (id : String)
    (h : firstMissing rentals movies = some id) :
    List.lookup id movies = none ∧ id ∈ rentals.map Rental.movieID := by
  induction rentals with
  | nil => exact Option.noConfusion h
  | cons r rest ih =>
    unfold firstMissing at h
    cases hl : List.lookup r.movieID movies with
    | none =>
      rw [hl] at h
      injection h with h'
      subst h'
      exact ⟨hl, by simp⟩
    | some movie =>
      rw [hl] at h
      obtain ⟨h1, h2⟩ := ih h
      exact ⟨h1, by simp [h2]⟩

/-- With valid day counts throughout, the loop fails with `movieNotFound`
on the first rental whose catalog lookup misses. -/
theorem processRentals_error_of_missing (rentals : List Rental) (movies : Movies)
    (id : String)
    (hvalid : ∀ r ∈ rentals, r.days.den = 1 ∧ 1 ≤ r.days)
    (h : firstMissing rentals movies = some id) :
    processRentals rentals movies =
      Except.error (StatementError.movieNotFound id) := by
  induction rentals with
  | nil => exact Option.noConfusion h
  | cons r rest ih =>
    unfold firstMissing at h
    cases hl : List.lookup r.movieID movies with
    | none =>
      rw [hl] at h
      injection h with h'
      subst h'
      simp [processRentals, hl]
    | some movie =>
      rw [hl] at h
      obtain ⟨hden, hpos⟩ := hvalid r (by simp)
      obtain ⟨res, hok⟩ := calcCharge_ok_of_valid movie r.days hden hpos
      have hrest := ih (fun x hx => hvalid x (by simp [hx])) h
      simp [processRentals, hl, hok, hrest]

/-- C6, amended: when every rental has a valid day count and some
rental's movie ID has no catalog entry, `statement` fails with
`movieNotFound` naming the first such ID, and the missing ID is indeed
absent from the catalog and among the customer's rental IDs. -/
theorem missing_movie_aborts (customer : Customer) (movies : Movies) (id : String)
    (hvalid : ∀ r ∈ customer.rentals, r.days.den = 1 ∧ 1 ≤ r.days)
    (hmiss : firstMissing customer.rentals movies = some id) :
    statement customer movies = Except.error (StatementError.movieNotFound id) ∧
    List.lookup id movies = none ∧
    id ∈ customer.rentals.map Rental.movieID := by
  have h1 := processRentals_error_of_missing customer.rentals movies id hvalid hmiss
  have h2 := firstMissing_sound customer.rentals movies id hmiss
  refine ⟨?_, h2.1, h2.2⟩
  unfold statement
  rw [h1]

/-- C6 witness: `missCustomer` has valid day counts and references the
absent ID `"MISSING"`, so its statement is the `movieNotFound`
failure. -/
theorem missing_movie_aborts_witness :
    ((Rental.mk "F001" 2).days.den = 1 ∧ 1 ≤ (Rental.mk "F001" 2).days) ∧
    ((Rental.mk "MISSING" 1).days.den = 1 ∧ 1 ≤ (Rental.mk "MISSING" 1).days) ∧
    firstMissing missCustomer.rentals scenarioMovies = some "MISSING" ∧
    (statement missCustomer scenarioMovies =
        Except.error (StatementError.movieNotFound "MISSING") ∧
      List.lookup "MISSING" scenarioMovies = none ∧
      "MISSING" ∈ missCustomer.rentals.map Rental.movieID) :=
  ⟨by decide, by decide, by decide,
    missing_movie_aborts missCustomer scenarioMovies "MISSING" (by decide) (by decide)⟩

/-- C6, counterexample: in `cexCustomer` the second rental's ID `"B"` is
absent from `cexMovies`, yet `statement` fails with `invalidInput` (the
first rental's `days = 0` is validated before the second rental's lookup
is reached), not with `movieNotFound`. -/
theorem missing_movie_cex :
    List.lookup "B" cexMovies = none ∧
    "B" ∈ cexCustomer.rentals.map Rental.movieID ∧
    statement cexCustomer cexMovies = Except.error (StatementError.invalidInput 0) ∧
    isMovieNotFound (statement cexCustomer cexMovies) = false := by
  refine ⟨by decide, by decide, by decide, by decide⟩

/-- Every amount the pricing step can produce is an integer number of
half currency units. -/
theorem amount_half_of_calc (movie : Movie) (days : ℚ) (res : RentalCharge × List String)
    (h : calculateRentalCharge movie days = Except.ok res) :
    ∃ k : ℤ, res.1.amount = (k : ℚ) / 2 := by
  unfold calculateRentalCharge at h
  by_cases hv : days.den ≠ 1 ∨ days < 1
  · rw [if_pos hv] at h
    exact Except.noConfusion h
  · rw [if_neg hv] at h
    push_neg at hv
    have hnum : ((days.num : ℚ)) = days := (Rat.den_eq_one_iff days).1 hv.1
    rcases chargeCalculators_cases movie.code with hc | hc | hc | hc <;> rw [hc] at h <;>
      injection h with h' <;> subst h'
    · exact ⟨0, by show (0 : ℚ) = (0 : ℤ) / 2; norm_num⟩
    · rw [← hnum]
      by_cases hgt : PRICING_TIERS.regular.thresholdDays < ((days.num : ℚ))
      · refine ⟨3 * days.num - 2, ?_⟩
        show (if PRICING_TIERS.regular.thresholdDays < ((days.num : ℚ)) then
          PRICING_TIERS.regular.base +
            ((days.num : ℚ) - PRICING_TIERS.regular.thresholdDays) * PRICING_TIERS.regular.extraRate
          else PRICING_TIERS.regular.base) = _
        rw [if_pos hgt]
        show (2 : ℚ) + ((days.num : ℚ) - 2) * 1.5 = _
        rw [show (1.5 : ℚ) = 3 / 2 from by norm_num]
        push_cast
        ring
      · refine ⟨4, ?_⟩
        show (if PRICING_TIERS.regular.thresholdDays < ((days.num : ℚ)) then
          PRICING_TIERS.regular.base +
            ((days.num : ℚ) - PRICING_TIERS.regular.thresholdDays) * PRICING_TIERS.regular.extraRate
          else PRICING_TIERS.regular.base) = _
        rw [if_neg hgt]
        show (2 : ℚ) = _
        norm_num
    · rw [← hnum]
      by_cases hgt : PRICING_TIERS.children.thresholdDays < ((days.num : ℚ))
      · refine ⟨3 * days.num - 6, ?_⟩
        show (if PRICING_TIERS.children.thresholdDays < ((days.num : ℚ)) then
          PRICING_TIERS.children.base +
            ((days.num : ℚ) - PRICING_TIERS.children.thresholdDays) * PRICING_TIERS.children.extraRate
          else PRICING_TIERS.children.base) = _
        rw [if_pos hgt]
        show (1.5 : ℚ) + ((days.num : ℚ) - 3) * 1.5 = _
        rw [show (1.5 : ℚ) = 3 / 2 from by norm_num]
        push_cast
        ring
      · refine ⟨3, ?_⟩
        show (if PRICING_TIERS.children.thresholdDays < ((days.num : ℚ)) then
          PRICING_TIERS.children.base +
            ((days.num : ℚ) - PRICING_TIERS.children.thresholdDays) * PRICING_TIERS.children.extraRate
          else PRICING_TIERS.children.base) = _
        rw [if_neg hgt]
        show (1.5 : ℚ) = _
        norm_num
    · rw [← hnum]
      refine ⟨6 * days.num, ?_⟩
      show (days.num : ℚ) * PRICING_TIERS.new.rate = _
      show (days.num : ℚ) * 3 = _
      push_cast
      ring

/-- On success, the loop's running total is the sum of the recorded
summary amounts, each of which is an integer number of half units. -/
theorem processRentals_sums (rentals : List Rental) (movies : Movies) (data : StmtData)
    (h : processRentals rentals movies = Except.ok data) :
    data.totalAmount = (data.rentalSummaries.map RentalSummary.amount).sum ∧
    ∀ s ∈ data.rentalSummaries, ∃ k : ℤ, s.amount = (k : ℚ) / 2 := by
  induction rentals generalizing data with
  | nil =>
    unfold processRentals at h
    injection h with h'
    subst h'
    exact ⟨by simp, by simp⟩
  | cons r rest ih =>
    unfold processRentals at h
    rcases hl : List.lookup r.movieID movies with _ | movie
    · simp only [hl] at h
      exact Except.noConfusion h
    · simp only [hl] at h
      rcases hc : calculateRentalCharge movie r.days with e | ⟨charge, lg⟩
      · simp only [hc] at h
        exact Except.noConfusion h
      · simp only [hc] at h
        rcases hp : processRentals rest movies with e | d
        · simp only [hp] at h
          exact Except.noConfusion h
        · simp only [hp] at h
          injection h with h'
          subst h'
          obtain ⟨ht, hh⟩ := ih d hp
          refine ⟨by simp [ht], ?_⟩
          intro s hs
          rcases List.mem_cons.1 hs with hs | hs
          · subst hs
            exact amount_half_of_calc movie r.days (charge, lg) hc
          · exact hh s hs

/-- A sum of half-integer rationals is a half-integer. -/
theorem sum_halves (l : List ℚ) (h : ∀ a ∈ l, ∃ k : ℤ, a = (k : ℚ) / 2) :
    ∃ K : ℤ, l.sum = (K : ℚ) / 2 := by
  induction l with
  | nil => exact ⟨0, by simp⟩
  | cons a t ih =>
    obtain ⟨k, hk⟩ := h a (by simp)
    obtain ⟨K, hK⟩ := ih (fun x hx => h x (by simp [hx]))
    refine ⟨k + K, ?_⟩
    rw [List.sum_cons, hk, hK]
    push_cast
    ring

/-- Batteries' `Rat.floor` agrees with the `Int.floor` of the floor ring `ℚ`. -/
theorem ratFloor_eq_intFloor (q : ℚ) : q.floor = ⌊q⌋ := by
  rw [Rat.floor_def, Rat.floor_def']

/-- Reading an amount back at 2-decimal precision leaves any half-integer
amount unchanged. -/
theorem round2_half (k : ℤ) : round2 ((k : ℚ) / 2) = (k : ℚ) / 2 := by
  unfold round2 roundCents
  have h1 : (k : ℚ) / 2 * 100 + 1 / 2 = ((50 * k : ℤ) : ℚ) + 1 / 2 := by
    push_cast
    ring
  rw [h1, ratFloor_eq_intFloor, Int.floor_int_add]
  have h2 : ⌊(1 : ℚ) / 2⌋ = 0 := by
    rw [Rat.floor_def]
    decide
  rw [h2]
  push_cast
  ring

/-- C7: whenever the rental loop succeeds, the total read back at
2-decimal precision equals the sum of the per-line amounts read back at
2-decimal precision — no drift between the displayed lines and the
displayed total. -/
theorem displayed_total_consistent (rentals : List Rental) (movies : Movies)
    (data : StmtData)
    (h : processRentals rentals movies = Except.ok data) :
    round2 data.totalAmount =
      (data.rentalSummaries.map (fun s => round2 s.amount)).sum := by
  obtain ⟨ht, hh⟩ := processRentals_sums rentals movies data h
  have hcong : data.rentalSummaries.map (fun s => round2 s.amount) =
      data.rentalSummaries.map RentalSummary.amount := by
    apply List.map_congr_left
    intro s hs
    obtain ⟨k, hk⟩ := hh s hs
    rw [hk, round2_half]
  have hmap : ∀ a ∈ data.rentalSummaries.map RentalSummary.amount,
      ∃ k : ℤ, a = (k : ℚ) / 2 := by
    intro a ha
    obtain ⟨s, hs, rfl⟩ := List.mem_map.1 ha
    exact hh s hs
  obtain ⟨K, hK⟩ := sum_halves _ hmap
  rw [hcong, ht, hK, round2_half]

/-- C7 witness on the scenario data: `round2 10 = 3.5 + 2 + 1.5 + 3` read
back at 2 decimals. -/
theorem displayed_total_consistent_witness :
    processRentals martinCustomer.rentals scenarioMovies = Except.ok martinData ∧
    round2 martinData.totalAmount =
      (martinData.rentalSummaries.map (fun s => round2 s.amount)).sum :=
  ⟨by decide,
    displayed_total_consistent martinCustomer.rentals scenarioMovies martinData (by decide)⟩

/-- C10 witness: a catalog whose only movie has the blank title `"  "`. -/
theorem blank_title_separator_accumulates_witness :
    List.lookup (Rental.mk "B1" 1).movieID [("B1", Movie.mk "  " "regular")] =
      some (Movie.mk "  " "regular") ∧
    jsTrim (Movie.mk "  " "regular").title = "" ∧
    calculateRentalCharge (Movie.mk "  " "regular") (Rental.mk "B1" 1).days =
      Except.ok (⟨2, 1⟩, []) ∧
    processRentals [] [("B1", Movie.mk "  " "regular")] = Except.ok ⟨0, 0, [], []⟩ ∧
    (processRentals [Rental.mk "B1" 1] [("B1", Movie.mk "  " "regular")] =
        Except.ok ⟨(2 : ℚ) + 0, 1 + 0, [⟨"  ", 2⟩], [] ++ []⟩ ∧
      formatStatementLine (Movie.mk "  " "regular").title 2 = repeatChar '-' 38) :=
  ⟨by decide, by decide, by decide, by decide,
    blank_title_separator_accumulates (Rental.mk "B1" 1) [] [("B1", Movie.mk "  " "regular")]
      (Movie.mk "  " "regular") ⟨2, 1⟩ [] ⟨0, 0, [], []⟩ 2
      (by decide) (by decide) (by decide) (by decide)⟩

end RentalStatement
